import Mathlib

/-!
# Verification of the esk regional replica-routing layer

Shallow embedding of the database routing subsystem of the `esk` repository:

* `src/packages/db/src/utils/replicas.ts` — `withReplicas` / `createDatabase`
  routing facade;
* `src/packages/db/src/client.ts` — `getReplicaIndex`, `connectDb` with retry;
* `src/packages/db/src/env.ts` — `ReplicationCache` (read-after-write cache)
  and the `EnvSchema.superRefine` replica/region validation;
* `src/packages/db/src/utils/region-detector.ts` — platform region detection;
* providers (`PostgresProvider`, `SupabaseProvider`) —
  `getReplicaIndexForRegion`;
* the REST read-after-write middleware (`withRESTReadAfterWrite`).

Database instances are abstracted to the inductive `Db` (the primary instance
or the i-th replica instance); queries never execute here, only the routing
decision (which instance serves an operation) is modelled.  Wall-clock time
(`Date.now()`) is an explicit natural-number parameter in milliseconds.
-/

namespace Esk

/-! ### JS string primitives

The source uses `String.prototype.split(',')`, `trim()`, `toLowerCase()` and
`includes`.  They are embedded here over the character list of a `String`
(structural recursion, so every definition evaluates inside the kernel). -/

/-- Worker for `jsSplit`: accumulates the current field, emitting it at each
separator; the final field is emitted at the end of input. -/
def splitCharsAux (sep : Char) : List Char → List Char → List (List Char)
  | [], acc => [acc.reverse]
  | c :: cs, acc =>
      if c = sep then acc.reverse :: splitCharsAux sep cs []
      else splitCharsAux sep cs (c :: acc)

/-- JS `s.split(sep)` for a one-character separator: `"".split(',') = [""]`,
`"a,".split(',') = ["a", ""]`, exactly as in JS. -/
def jsSplit (sep : Char) (s : String) : List String :=
  (splitCharsAux sep s.data []).map String.mk

/-- The whitespace characters relevant to `trim()` for this configuration
surface (space, tab, newline, carriage return). -/
def isJsSpace (c : Char) : Bool := c = ' ' ∨ c = '\t' ∨ c = '\n' ∨ c = '\r'

/-- JS `s.trim()`: strip leading and trailing whitespace. -/
def jsTrim (s : String) : String :=
  String.mk (((s.data.dropWhile isJsSpace).reverse.dropWhile isJsSpace).reverse)

/-- JS `s.toLowerCase()` (ASCII case mapping, which covers every region tag
and alias in the source). -/
def jsToLower (s : String) : String := String.mk (s.data.map Char.toLower)

/-- A physical database instance: the single primary, or the i-th replica
Drizzle instance.  Routing decisions resolve to one of these. -/
inductive Db where
  | primary : Db
  | replica : Nat → Db
deriving DecidableEq, Repr

/-- `ReplicaSelectionStrategy<Q> = (replicas: Q[]) => Q` from `replicas.ts`:
a pure function choosing one replica from the replica list. -/
abbrev Selector := List Db → Db

/-- Read entry points of the facade.  `replicas.ts` binds `select`,
`selectDistinct`, `selectDistinctOn`, `$count`, `with`, `$with` at facade
creation and exposes `query` through a getter; all of them are served by
`getDbForRead()`. -/
inductive ReadOp where
  | select | selectDistinct | selectDistinctOn | count | withCte | withDollar | query
deriving DecidableEq, Repr

/-- Write entry points of the facade, bound to `primary` in `createDatabase`. -/
inductive WriteOp where
  | update | insert | delete | execute | transaction | refreshMaterializedView
deriving DecidableEq, Repr

/-- `getDbForRead = () => (usePrimary ? primary : getReplica(replicas))`
from `createDatabase` in `replicas.ts`. -/
def getDbForRead (primary : Db) (replicas : List Db) (getReplica : Selector)
    (usePrimary : Bool) : Db :=
  if usePrimary then primary else getReplica replicas

/-- The `ReplicatedDatabase` facade produced by `createDatabase`: the closure
context of `withReplicas` (`primary`, `replicas`, `getReplica`) together with
the per-entry-point targets assigned in `createDatabase`.  Each `...T` field
holds the instance the corresponding method was bound to at creation. -/
structure Facade where
  primaryDb : Db
  replicas : List Db
  getReplica : Selector
  usePrimary : Bool
  selectT : Db
  selectDistinctT : Db
  selectDistinctOnT : Db
  countT : Db
  withCteT : Db
  withDollarT : Db
  updateT : Db
  insertT : Db
  deleteT : Db
  executeT : Db
  transactionT : Db
  refreshMaterializedViewT : Db
  executeOnReplicaT : Db
  transactionOnReplicaT : Db
  primaryT : Db

/-- `createDatabase(usePrimary)` from `replicas.ts`: binds every read entry
point to `getDbForRead()`, every write entry point to `primary`, the
replica escape hatches to `getDbForRead()`, and `$primary` to `primary`. -/
def createDatabase (primary : Db) (replicas : List Db) (getReplica : Selector)
    (usePrimary : Bool) : Facade :=
  { primaryDb := primary
    replicas := replicas
    getReplica := getReplica
    usePrimary := usePrimary
    selectT := getDbForRead primary replicas getReplica usePrimary
    selectDistinctT := getDbForRead primary replicas getReplica usePrimary
    selectDistinctOnT := getDbForRead primary replicas getReplica usePrimary
    countT := getDbForRead primary replicas getReplica usePrimary
    withCteT := getDbForRead primary replicas getReplica usePrimary
    withDollarT := getDbForRead primary replicas getReplica usePrimary
    updateT := primary
    insertT := primary
    deleteT := primary
    executeT := primary
    transactionT := primary
    refreshMaterializedViewT := primary
    executeOnReplicaT := getDbForRead primary replicas getReplica usePrimary
    transactionOnReplicaT := getDbForRead primary replicas getReplica usePrimary
    primaryT := primary }

/-- `withReplicas(primary, replicas, getReplica)` returns
`createDatabase(false)`. -/
def withReplicas (primary : Db) (replicas : List Db) (getReplica : Selector) :
    Facade :=
  createDatabase primary replicas getReplica false

/-- `usePrimaryOnly = () => createDatabase(true)`: builds a fresh facade from
the same closure context with `usePrimary = true`; the receiving facade is
not modified (the source never assigns into it). -/
def Facade.usePrimaryOnly (f : Facade) : Facade :=
  createDatabase f.primaryDb f.replicas f.getReplica true

/-- The instance that serves a given read entry point.  The bound methods use
their creation-time targets; the `query` getter re-evaluates `getDbForRead()`
on each access. -/
def Facade.readTarget (f : Facade) : ReadOp → Db
  | .select => f.selectT
  | .selectDistinct => f.selectDistinctT
  | .selectDistinctOn => f.selectDistinctOnT
  | .count => f.countT
  | .withCte => f.withCteT
  | .withDollar => f.withDollarT
  | .query => getDbForRead f.primaryDb f.replicas f.getReplica f.usePrimary

/-- The instance that serves a given write entry point. -/
def Facade.writeTarget (f : Facade) : WriteOp → Db
  | .update => f.updateT
  | .insert => f.insertT
  | .delete => f.deleteT
  | .execute => f.executeT
  | .transaction => f.transactionT
  | .refreshMaterializedView => f.refreshMaterializedViewT

/-- Facades reachable from `withReplicas primary replicas sel` by any
sequence of `usePrimaryOnly()` calls — every facade a caller can obtain
through the public surface. -/
inductive Reachable (primary : Db) (replicas : List Db) (sel : Selector) :
    Facade → Prop where
  | base : Reachable primary replicas sel (withReplicas primary replicas sel)
  | step (f : Facade) : Reachable primary replicas sel f →
      Reachable primary replicas sel f.usePrimaryOnly

/-! ## ReplicationCache (`src/packages/db/src/env.ts`)

The cache is a JS `Map<string, CacheEntry>`, modelled as a partial map
`String → Option CacheEntry`.  `Date.now()` is the explicit `now` argument
(milliseconds). -/

/-- `interface CacheEntry { timestamp: number; expiresAt: number }`. -/
structure CacheEntry where
  timestamp : Nat
  expiresAt : Nat
deriving DecidableEq, Repr

/-- The `Map<string, CacheEntry>` held by `ReplicationCache`. -/
abbrev CacheMap := String → Option CacheEntry

/-- The constructor default `ttlMs: number = 5000`; the exported singleton
`replicationCache = new ReplicationCache()` uses it. -/
def replicationCacheTtl : Nat := 5000

/-- `ReplicationCache.set(key)`: stores
`{ timestamp: now, expiresAt: now + ttl }`, overwriting any prior entry. -/
def cacheSet (ttl : Nat) (c : CacheMap) (key : String) (now : Nat) : CacheMap :=
  fun k => if k = key then some ⟨now, now + ttl⟩ else c k

/-- `ReplicationCache.get(key)`: `null` when absent; when present and
`now >= expiresAt`, deletes the entry and returns `null`; otherwise returns
`expiresAt`.  The pair carries the (possibly updated) map. -/
def cacheGet (c : CacheMap) (key : String) (now : Nat) : Option Nat × CacheMap :=
  match c key with
  | none => (none, c)
  | some entry =>
      if entry.expiresAt ≤ now then
        (none, fun k => if k = key then none else c k)
      else
        (some entry.expiresAt, c)

/-- `ReplicationCache.cleanup()`: deletes every entry with
`now >= expiresAt`. -/
def cacheCleanup (c : CacheMap) (now : Nat) : CacheMap :=
  fun k =>
    match c k with
    | none => none
    | some entry => if entry.expiresAt ≤ now then none else some entry

/-- `set`/`get` on the exported singleton (default TTL 5000 ms). -/
def replicationCacheSet (c : CacheMap) (key : String) (now : Nat) : CacheMap :=
  cacheSet replicationCacheTtl c key now

/-! ## Read-after-write middleware (`withRESTReadAfterWrite`)

The middleware inspects the HTTP method and the session, consults the
replication cache, and either keeps the facade from the context or replaces
it with `db.usePrimaryOnly()`. -/

/-- Which facade the middleware stores back into the context: the original
`db` or `db.usePrimaryOnly()`. -/
inductive Route where
  | primaryOnly
  | original
deriving DecidableEq, Repr

/-- `['POST', 'PUT', 'PATCH', 'DELETE'].includes(method)`. -/
def isMutationMethod (method : String) : Bool :=
  method = "POST" ∨ method = "PUT" ∨ method = "PATCH" ∨ method = "DELETE"

/-- `withRESTReadAfterWrite` routing decision.  `userId?` is the session's
user id when the session object carries one (the cache key is then
`"user:" ++ userId`).  Returns the route chosen for the request and the
replication-cache state after the request. -/
def withRESTReadAfterWrite (method : String) (userId? : Option String)
    (c : CacheMap) (now : Nat) : Route × CacheMap :=
  match userId? with
  | some uid =>
      let cacheKey := "user:" ++ uid
      if isMutationMethod method then
        (Route.primaryOnly, replicationCacheSet c cacheKey now)
      else
        match cacheGet c cacheKey now with
        | (some _, c1) => (Route.primaryOnly, c1)
        | (none, c1) => (Route.original, c1)
  | none =>
      if isMutationMethod method then (Route.primaryOnly, c)
      else (Route.original, c)

/-! ## Process environment and region detection
(`src/packages/db/src/utils/region-detector.ts`, the env modules)

`process.env` is modelled by the record of the variables this subsystem
reads; a missing variable is `none`.  JS truthiness on a string variable
(`if (x)`, `x || y`) treats both `undefined` and `""` as false. -/

/-- The slice of `process.env` read by the database subsystem. -/
structure ProcessEnv where
  DATABASE_PRIMARY_URL : Option String := none
  DATABASE_PRIMARY_POOLER_URL : Option String := none
  DATABASE_REPLICAS : Option String := none
  DATABASE_REGIONS : Option String := none
  DATABASE_REGION : Option String := none
  FLY_REGION : Option String := none
  FLY_PRIMARY_REGION : Option String := none
  RENDER_SERVICE_REGION : Option String := none
  RAILWAY_REGION : Option String := none
  VERCEL_REGION : Option String := none
  AWS_REGION : Option String := none
  AWS_DEFAULT_REGION : Option String := none
deriving DecidableEq, Repr

/-- JS truthiness of an optional string: `undefined` and `""` are falsy. -/
def truthy : Option String → Bool
  | none => false
  | some s => ¬s.isEmpty

/-- JS `a || b` on optional strings (first truthy operand, else `b`). -/
def jsOr (a b : Option String) : Option String :=
  if truthy a then a else b

/-- `platformDetectors.flyio`: `flyRegion || flyPrimary || null`. -/
def detectFlyio (e : ProcessEnv) : Option String :=
  jsOr e.FLY_REGION (jsOr e.FLY_PRIMARY_REGION none)

/-- `platformDetectors.render`: `renderRegion || null`. -/
def detectRender (e : ProcessEnv) : Option String :=
  jsOr e.RENDER_SERVICE_REGION none

/-- `platformDetectors.railway`: `railwayRegion || null`. -/
def detectRailway (e : ProcessEnv) : Option String :=
  jsOr e.RAILWAY_REGION none

/-- `platformDetectors.vercel`: `vercelRegion || null`. -/
def detectVercel (e : ProcessEnv) : Option String :=
  jsOr e.VERCEL_REGION none

/-- `platformDetectors.aws`: `awsRegion || awsDefaultRegion || null`. -/
def detectAws (e : ProcessEnv) : Option String :=
  jsOr e.AWS_REGION (jsOr e.AWS_DEFAULT_REGION none)

/-- The `detectors` array of `detectDeploymentRegion`, in source order:
Fly.io, Render, Vercel, Railway, AWS. -/
def platformDetectorList : List (ProcessEnv → Option String) :=
  [detectFlyio, detectRender, detectVercel, detectRailway, detectAws]

/-- The detector loop: `for (...) { const region = detect(); if (region)
return region; }` followed by `return null`. -/
def firstDetectedRegion (e : ProcessEnv) :
    List (ProcessEnv → Option String) → Option String
  | [] => none
  | d :: rest =>
      let region := d e
      if truthy region then region else firstDetectedRegion e rest

/-- `detectDeploymentRegion()`: the manual `DATABASE_REGION` override wins
when truthy; otherwise the first detector returning a truthy region;
otherwise `null` (the explicit unresolved result). -/
def detectDeploymentRegion (e : ProcessEnv) : Option String :=
  if truthy e.DATABASE_REGION then e.DATABASE_REGION
  else firstDetectedRegion e platformDetectorList

/-- `setDatabaseRegion()`: writes the detected region into
`process.env.DATABASE_REGION` when one was detected, and leaves the
environment untouched otherwise. -/
def setDatabaseRegion (e : ProcessEnv) : ProcessEnv :=
  match detectDeploymentRegion e with
  | some r => { e with DATABASE_REGION := some r }
  | none => e

/-! ## Environment validation (`EnvSchema` in `env.ts` / the utils env module)

`safeParse(process.env)` copies the validated variables into a frozen data
object (the snapshot the rest of the process uses).  The `z.url()` format
check is modelled as presence of the variable; the claims under proof do not
depend on URL well-formedness, only on the `superRefine` length rule and on
the snapshot semantics. -/

/-- `data.DATABASE_REPLICAS?.split(',').map(s => s.trim()).filter(Boolean)
|| []` (identically for `DATABASE_REGIONS`). -/
def splitEnvList : Option String → List String
  | none => []
  | some s => ((jsSplit ',' s).map jsTrim).filter (fun x => ¬x.isEmpty)

/-- `getReplicaRegions()` (providers module):
`env.DATABASE_REGIONS?.split(',').map(r => r.trim()) || []` — note: trimmed
but, unlike the `superRefine` validation, not filtered for emptiness. -/
def getReplicaRegions : Option String → List String
  | none => []
  | some s => (jsSplit ',' s).map jsTrim

/-- The `superRefine` predicate: an issue is added exactly when both parsed
lists are non-empty and their lengths differ. -/
def replicasRegionsMismatch (replicasVar regionsVar : Option String) : Bool :=
  let replicas := splitEnvList replicasVar
  let regions := splitEnvList regionsVar
  0 < replicas.length ∧ 0 < regions.length ∧ replicas.length ≠ regions.length

/-- The validated env snapshot (`const { data: env } = EnvSchema.safeParse(
process.env)`): the database-relevant fields copied at parse time. -/
structure EnvData where
  DATABASE_PRIMARY_URL : String
  DATABASE_PRIMARY_POOLER_URL : String
  DATABASE_REPLICAS : Option String
  DATABASE_REGIONS : Option String
  DATABASE_REGION : Option String
deriving DecidableEq, Repr

/-- `EnvSchema.safeParse(process.env)`: fails when a required variable is
missing or when the `superRefine` length rule fires; on success returns the
snapshot.  A failure makes the module call `process.exit(1)` — no value is
ever produced, so nothing downstream (pool creation, connection) runs. -/
def envSafeParse (e : ProcessEnv) : Except String EnvData :=
  match e.DATABASE_PRIMARY_URL, e.DATABASE_PRIMARY_POOLER_URL with
  | some purl, some poolerUrl =>
      if replicasRegionsMismatch e.DATABASE_REPLICAS e.DATABASE_REGIONS then
        Except.error
          "DATABASE_REPLICAS and DATABASE_REGIONS arrays must have the same length"
      else
        Except.ok
          { DATABASE_PRIMARY_URL := purl
            DATABASE_PRIMARY_POOLER_URL := poolerUrl
            DATABASE_REPLICAS := e.DATABASE_REPLICAS
            DATABASE_REGIONS := e.DATABASE_REGIONS
            DATABASE_REGION := e.DATABASE_REGION }
  | _, _ => Except.error "Invalid environment variables"

/-- State observable after the db client module finished initialising:
the env snapshot it will read from, the `process.env` after
`setDatabaseRegion()`, and how many connection pools were built. -/
structure DbModuleState where
  envSnapshot : EnvData
  processEnv : ProcessEnv
  replicaPoolCount : Nat
deriving Repr

/-- Initialisation order of `client.ts`: the import of the env module parses
and snapshots `process.env` first; the module body then runs
`setDatabaseRegion()` (which may write `process.env.DATABASE_REGION`) and
builds the primary/replica pools from the snapshot.  On a parse failure the
process exits before any pool exists. -/
def clientModuleInit (e0 : ProcessEnv) : Except String DbModuleState :=
  match envSafeParse e0 with
  | Except.error msg => Except.error msg
  | Except.ok snapshot =>
      let e1 := setDatabaseRegion e0
      Except.ok
        { envSnapshot := snapshot
          processEnv := e1
          replicaPoolCount := (splitEnvList snapshot.DATABASE_REPLICAS).length }

/-! ## `getReplicaIndex` and `connectDb` (`src/packages/db/src/client.ts`) -/

/-- `getReplicaIndex()`: with no (truthy) region or no replicas, falls back to
`Math.floor(Date.now() / 1000) % replicaCount`; otherwise looks for a
configured region strictly equal to `region.toLowerCase()` and returns its
index when also below `replicaUrls.length`; otherwise the same round-robin
fallback.  `nowMs` is `Date.now()` at the call.  (In the source
`replicaUrls.length = replicaPools.length`; connectDb only calls this with
`replicaCount > 0`, so the JS `% 0 = NaN` corner is unreachable.) -/
def getReplicaIndex (envRegion : Option String) (replicaCount : Nat)
    (regions : List String) (replicaUrlsLength : Nat) (nowMs : Nat) : Nat :=
  if ¬truthy envRegion ∨ replicaCount = 0 then
    nowMs / 1000 % replicaCount
  else
    let region := envRegion.getD ""
    match regions.findIdx? (fun r => r = jsToLower region) with
    | some index =>
        if index < replicaUrlsLength then index
        else nowMs / 1000 % replicaCount
    | none => nowMs / 1000 % replicaCount

/-- The selector closure `connectDb` passes to `withReplicas`: it captures the
`replicaIndex` computed once at connect time; `replicas[replicaIndex]`, with
`replicas[0]!` as fallback when that index is out of range.  (The `Db.primary`
default of `headD` is unreachable: `withReplicas` is only called with a
non-empty replica list.) -/
def connectSelector (replicaIndex : Nat) : Selector :=
  fun replicas =>
    match replicas.get? replicaIndex with
    | some r => r
    | none => replicas.headD Db.primary

/-- Result of `connectDb`: the bare `primaryDb` (zero replicas) or the
replicated facade. -/
inductive ConnectOutcome where
  | primaryOnlyDb
  | replicated (f : Facade)

/-- `connectWithRetry(attempt)` inside `connectDb(retries)`: with zero
replicas, return `primaryDb` at once (no probe); otherwise probe the primary
(`probe attempt` is whether `SELECT 1` succeeds on that attempt), compute
`replicaIndex` via `getReplicaIndex()` (with the wall clock of that attempt)
and build the facade; on a failed probe either rethrow (when
`attempt >= retries`) or sleep `1000 * attempt` ms and recurse with
`attempt + 1`.  The returned list records the backoff delays slept, in
order. -/
def connectWithRetry (envRegion : Option String) (regions : List String)
    (replicaDbs : List Db) (probe : Nat → Bool) (clock : Nat → Nat)
    (retries attempt : Nat) : Except Unit (ConnectOutcome × List Nat) :=
  if replicaDbs.isEmpty then
    Except.ok (ConnectOutcome.primaryOnlyDb, [])
  else if probe attempt then
    let replicaIndex := getReplicaIndex envRegion replicaDbs.length regions
      replicaDbs.length (clock attempt)
    Except.ok
      (ConnectOutcome.replicated
        (withReplicas Db.primary replicaDbs (connectSelector replicaIndex)), [])
  else if retries ≤ attempt then
    Except.error ()
  else
    match connectWithRetry envRegion regions replicaDbs probe clock retries
      (attempt + 1) with
    | Except.error err => Except.error err
    | Except.ok (outcome, delays) =>
        Except.ok (outcome, 1000 * attempt :: delays)
termination_by retries - attempt

/-- `connectDb(retries = 3)` starts the retry loop at attempt 1. -/
def connectDb (envRegion : Option String) (regions : List String)
    (replicaDbs : List Db) (probe : Nat → Bool) (clock : Nat → Nat)
    (retries : Nat := 3) : Except Unit (ConnectOutcome × List Nat) :=
  connectWithRetry envRegion regions replicaDbs probe clock retries 1

/-- Read target of a successful replicated `connectDb` result (`none` when
the connection failed or no replicas were configured). -/
def connectResultRead (r : Except Unit (ConnectOutcome × List Nat))
    (op : ReadOp) : Option Db :=
  match r with
  | Except.ok (ConnectOutcome.replicated f, _) => some (f.readTarget op)
  | _ => none

/-! ## Provider region resolution (`getReplicaIndexForRegion`)

`PostgresProvider`, `SupabaseProvider` and `NeonProvider` share one
algorithm, differing only in the alias table, so the algorithm is embedded
once, parameterised by the table (`Object.entries` iterates the literal in
insertion order, hence an ordered association list). -/

/-- A provider's region-alias table: canonical tag → provider spellings. -/
abbrev AliasTable := List (String × List String)

/-- The `for (const [alias, targets] of Object.entries(regionAliases))` loop:
when the (lowercased) current region equals the alias key or one of its
targets, return the index of the first configured region whose lowercase
equals the key or is among the targets; when no configured region matches,
continue with the remaining aliases; exhausted ⇒ `-1`. -/
def aliasLoop (regions : List String) (region : String) : AliasTable → Int
  | [] => -1
  | (aliasKey, targets) :: rest =>
      if jsToLower region = aliasKey ∨ targets.contains (jsToLower region) then
        match regions.findIdx?
            (fun r => jsToLower r = aliasKey ∨ targets.contains (jsToLower r)) with
        | some i => (i : Int)
        | none => aliasLoop regions region rest
      else aliasLoop regions region rest

/-- `getReplicaIndexForRegion(region)`: `-1` for an empty region list;
otherwise the first case-insensitive direct match of `region` against the
configured regions; otherwise the alias loop. -/
def getReplicaIndexForRegion (aliases : AliasTable) (regions : List String)
    (region : String) : Int :=
  if regions.length = 0 then -1
  else
    match regions.findIdx? (fun r => jsToLower r = jsToLower region) with
    | some directIndex => (directIndex : Int)
    | none => aliasLoop regions region aliases

/-- `regionAliases` of `PostgresProvider.getReplicaIndexForRegion`. -/
def postgresRegionAliases : AliasTable :=
  [("us-east", ["us-east-1", "us-east-2", "virginia", "ohio"]),
   ("us-west", ["us-west-1", "us-west-2", "california", "oregon"]),
   ("eu-west", ["eu-west-1", "eu-west-2", "ireland", "london"]),
   ("eu-central", ["eu-central-1", "frankfurt"]),
   ("ap-southeast", ["ap-southeast-1", "ap-southeast-2", "singapore", "sydney"]),
   ("europe", ["eu-west-1", "eu-west-2", "eu-central-1"]),
   ("asia", ["ap-southeast-1", "ap-southeast-2", "ap-northeast-1"])]

/-- `regionAliases` of `SupabaseProvider.getReplicaIndexForRegion`. -/
def supabaseRegionAliases : AliasTable :=
  [("europe", ["fra", "frankfurt"]),
   ("us-east", ["iad", "washington", "virginia"]),
   ("us-west", ["sjc", "san-jose", "california"])]

/-! ## Spec-side definition for the round-robin fallback

The spec describes the no-region-match fallback as a selection recomputed
from the wall clock of each read operation.  This definition follows the
spec's words (not the source) so the two behaviours can be compared. -/

/-- The fallback behaviour the spec ascribes to reads: a read executed when
the wall clock is `readNowMs` lands on replica index
`floor(readNowMs / 1000) mod N` — the index varies with the clock of each
read operation. -/
def specTimeVaryingRoundRobinRead (replicas : List Db) (readNowMs : Nat) :
    Option Db :=
  replicas.get? (readNowMs / 1000 % replicas.length)

/-! ## Concrete example environments (used by witnesses) -/

/-- A process environment with the required URLs, no replica configuration,
and a Fly.io platform signal. -/
def exampleEnvFly : ProcessEnv :=
  { DATABASE_PRIMARY_URL := some "postgresql://primary"
    DATABASE_PRIMARY_POOLER_URL := some "postgresql://pooler"
    FLY_REGION := some "ams" }

/-- The module state `clientModuleInit exampleEnvFly` produces: the snapshot
was taken before `setDatabaseRegion()` wrote `ams` into `process.env`. -/
def exampleInitStateFly : DbModuleState :=
  { envSnapshot :=
      { DATABASE_PRIMARY_URL := "postgresql://primary"
        DATABASE_PRIMARY_POOLER_URL := "postgresql://pooler"
        DATABASE_REPLICAS := none
        DATABASE_REGIONS := none
        DATABASE_REGION := none }
    processEnv := { exampleEnvFly with DATABASE_REGION := some "ams" }
    replicaPoolCount := 0 }

/-! ## Helper lemmas -/

/-- Every read entry point of a facade serves the creation-time
`getDbForRead()` value. -/
theorem readTarget_createDatabase (p : Db) (rs : List Db) (sel : Selector)
    (mode : Bool) (op : ReadOp) :
    (createDatabase p rs sel mode).readTarget op = getDbForRead p rs sel mode := by
  cases op <;> rfl

/-- Every write entry point of a facade serves the `primary` argument. -/
theorem writeTarget_createDatabase (p : Db) (rs : List Db) (sel : Selector)
    (mode : Bool) (w : WriteOp) :
    (createDatabase p rs sel mode).writeTarget w = p := by
  cases w <;> rfl

/-- Unfolding `connectWithRetry` for a non-empty replica list and a
successful probe: the facade is built at once, with the replica index from
the clock of this attempt, and no backoff was slept. -/
theorem connectWithRetry_probe_true (er : Option String) (rg : List String)
    (r0 : Db) (rest : List Db) (probe : Nat → Bool) (clock : Nat → Nat)
    (retries attempt : Nat) (h : probe attempt = true) :
    connectWithRetry er rg (r0 :: rest) probe clock retries attempt =
      Except.ok (ConnectOutcome.replicated (withReplicas Db.primary (r0 :: rest)
        (connectSelector (getReplicaIndex er (r0 :: rest).length rg
          (r0 :: rest).length (clock attempt)))), []) := by
  rw [connectWithRetry]
  simp [h]

/-- Unfolding `connectWithRetry` for a failed probe with attempts left:
sleep `1000 * attempt` and recurse. -/
theorem connectWithRetry_probe_false (er : Option String) (rg : List String)
    (r0 : Db) (rest : List Db) (probe : Nat → Bool) (clock : Nat → Nat)
    (retries attempt : Nat) (h : probe attempt = false) (hlt : attempt < retries) :
    connectWithRetry er rg (r0 :: rest) probe clock retries attempt =
      match connectWithRetry er rg (r0 :: rest) probe clock retries (attempt + 1) with
      | Except.error err => Except.error err
      | Except.ok (outcome, delays) => Except.ok (outcome, 1000 * attempt :: delays) := by
  rw [connectWithRetry]
  simp [h, Nat.not_le.mpr hlt]

/-- Unfolding `connectWithRetry` for a failed probe with no attempt left:
the connection error is rethrown. -/
theorem connectWithRetry_probe_exhausted (er : Option String) (rg : List String)
    (r0 : Db) (rest : List Db) (probe : Nat → Bool) (clock : Nat → Nat)
    (retries attempt : Nat) (h : probe attempt = false) (hge : retries ≤ attempt) :
    connectWithRetry er rg (r0 :: rest) probe clock retries attempt =
      Except.error () := by
  rw [connectWithRetry]
  simp [h, hge]

/-- A facade reachable through the public surface keeps the `primary`
instance `withReplicas` closed over. -/
theorem reachable_primaryDb (p : Db) (rs : List Db) (sel : Selector)
    (f : Facade) (h : Reachable p rs sel f) : f.primaryDb = p := by
  induction h with
  | base => rfl
  | step g hg ih => exact ih

/-- After `set(key)` at time `T`, `get(key)` at time `now` yields
`T + ttl` before expiry and nothing from expiry on. -/
theorem cacheGet_after_set (ttl : Nat) (c : CacheMap) (key : String)
    (T now : Nat) :
    (cacheGet (cacheSet ttl c key T) key now).1 =
      if T + ttl ≤ now then none else some (T + ttl) := by
  have hkey : cacheSet ttl c key T key = some ⟨T, T + ttl⟩ := by
    simp [cacheSet]
  simp only [cacheGet, hkey]
  by_cases h : T + ttl ≤ now <;> simp [h]

/-- The middleware's route for a `GET` with a session is decided by the
presence of an unexpired cache entry for `"user:" ++ uid`. -/
theorem withRESTReadAfterWrite_get_route (uid : String) (c : CacheMap)
    (now : Nat) :
    (withRESTReadAfterWrite "GET" (some uid) c now).1 =
      match (cacheGet c ("user:" ++ uid) now).1 with
      | some _ => Route.primaryOnly
      | none => Route.original := by
  have hm : isMutationMethod "GET" = false := by decide
  simp only [withRESTReadAfterWrite, hm, Bool.false_eq_true, if_false]
  rcases h : cacheGet c ("user:" ++ uid) now with ⟨fst, c1⟩
  cases fst <;> simp

/-- `getReplicaIndex` with a truthy region, a direct hit in the configured
regions, and the index inside the URL list: returns that index. -/
theorem getReplicaIndex_direct (envRegion : Option String) (replicaCount : Nat)
    (regions : List String) (urlsLen now i : Nat)
    (ht : truthy envRegion = true) (hrc : replicaCount ≠ 0)
    (hf : regions.findIdx? (fun r => r = jsToLower (envRegion.getD "")) = some i)
    (hlt : i < urlsLen) :
    getReplicaIndex envRegion replicaCount regions urlsLen now = i := by
  rw [getReplicaIndex, if_neg (by simp [ht, hrc])]
  simp only [hf]
  rw [if_pos hlt]

/-- `getReplicaIndex` with a truthy region but no direct hit: time-based
round-robin fallback. -/
theorem getReplicaIndex_fallback_nomatch (envRegion : Option String)
    (replicaCount : Nat) (regions : List String) (urlsLen now : Nat)
    (ht : truthy envRegion = true) (hrc : replicaCount ≠ 0)
    (hf : regions.findIdx? (fun r => r = jsToLower (envRegion.getD "")) = none) :
    getReplicaIndex envRegion replicaCount regions urlsLen now =
      now / 1000 % replicaCount := by
  rw [getReplicaIndex, if_neg (by simp [ht, hrc])]
  simp only [hf]

/-- `getReplicaIndex` with a falsy region (`undefined` or `""`): time-based
round-robin fallback regardless of the configured regions. -/
theorem getReplicaIndex_fallback_falsy (envRegion : Option String)
    (replicaCount : Nat) (regions : List String) (urlsLen now : Nat)
    (ht : truthy envRegion = false) :
    getReplicaIndex envRegion replicaCount regions urlsLen now =
      now / 1000 % replicaCount := by
  rw [getReplicaIndex, if_pos (Or.inl (by simp [ht]))]

/-- The alias loop never errors: its result is `-1` or a valid index into
the configured region list. -/
theorem aliasLoop_bounds (regions : List String) (region : String)
    (table : AliasTable) :
    aliasLoop regions region table = -1 ∨
      ∃ i : Nat, aliasLoop regions region table = (i : Int) ∧
        i < regions.length := by
  induction table with
  | nil => exact Or.inl rfl
  | cons entry rest ih =>
      rcases entry with ⟨aliasKey, targets⟩
      rw [aliasLoop]
      split
      · rcases hfind : regions.findIdx?
            (fun r => jsToLower r = aliasKey ∨ targets.contains (jsToLower r))
            with _ | i
        · simp only [hfind]
          exact ih
        · right
          refine ⟨i, by simp only [hfind], ?_⟩
          exact (List.findIdx?_eq_some_iff_findIdx_eq.mp hfind).1
      · exact ih

/-- Soundness of the alias loop: a non-negative result comes from an alias
entry the current region matches, and is the first configured index matching
that entry. -/
theorem aliasLoop_sound (regions : List String) (region : String)
    (table : AliasTable) (i : Nat)
    (h : aliasLoop regions region table = (i : Int)) :
    ∃ k ts, (k, ts) ∈ table ∧
      (jsToLower region = k ∨ ts.contains (jsToLower region)) ∧
      regions.findIdx? (fun r => jsToLower r = k ∨ ts.contains (jsToLower r))
        = some i := by
  induction table with
  | nil =>
      rw [aliasLoop] at h
      omega
  | cons entry rest ih =>
      rcases entry with ⟨k0, ts0⟩
      rw [aliasLoop] at h
      split at h
      · rename_i hcond
        rcases hfind : regions.findIdx?
            (fun r => jsToLower r = k0 ∨ ts0.contains (jsToLower r))
            with _ | j
        · simp only [hfind] at h
          obtain ⟨k, ts, hm, hc, hf⟩ := ih h
          exact ⟨k, ts, List.mem_cons_of_mem _ hm, hc, hf⟩
        · simp only [hfind] at h
          have hj : j = i := by omega
          subst hj
          exact ⟨k0, ts0, List.mem_cons_self _ _, hcond, hfind⟩
      · obtain ⟨k, ts, hm, hc, hf⟩ := ih h
        exact ⟨k, ts, List.mem_cons_of_mem _ hm, hc, hf⟩

/-- Completeness of the `-1` result: when every alias the region matches has
no matching configured region, the loop returns `-1`. -/
theorem aliasLoop_none (regions : List String) (region : String)
    (table : AliasTable)
    (h : ∀ k ts, (k, ts) ∈ table →
      (jsToLower region = k ∨ ts.contains (jsToLower region)) →
      regions.findIdx? (fun r => jsToLower r = k ∨ ts.contains (jsToLower r))
        = none) :
    aliasLoop regions region table = -1 := by
  induction table with
  | nil => rfl
  | cons entry rest ih =>
      rcases entry with ⟨k0, ts0⟩
      rw [aliasLoop]
      split
      · rename_i hcond
        rw [h k0 ts0 (List.mem_cons_self _ _) hcond]
        exact ih fun k ts hm hc => h k ts (List.mem_cons_of_mem _ hm) hc
      · exact ih fun k ts hm hc => h k ts (List.mem_cons_of_mem _ hm) hc

/-! ## C1 -/

/-- C1: for every facade reachable from `withReplicas` through any sequence
of `usePrimaryOnly()` calls — that is, in both Auto and PrimaryOnly mode —
each of the write entry points `insert`, `update`, `delete`, `execute`,
`transaction`, `refreshMaterializedView` dispatches to the primary instance
and never to any replica instance. -/
theorem C1_write_entry_points_route_to_primary (rs : List Db) (sel : Selector)
    (f : Facade) (h : Reachable Db.primary rs sel f) (w : WriteOp) :
    f.writeTarget w = Db.primary ∧ ∀ i : Nat, f.writeTarget w ≠ Db.replica i := by
  induction h with
  | base =>
      have h1 : (withReplicas Db.primary rs sel).writeTarget w = Db.primary :=
        writeTarget_createDatabase _ _ _ _ w
      exact ⟨h1, fun i hi => by rw [h1] at hi; exact Db.noConfusion hi⟩
  | step g hg ih =>
      have hp : g.primaryDb = Db.primary := reachable_primaryDb _ _ _ _ hg
      have h1 : g.usePrimaryOnly.writeTarget w = Db.primary := by
        show (createDatabase g.primaryDb g.replicas g.getReplica true).writeTarget w
          = Db.primary
        rw [writeTarget_createDatabase, hp]
      exact ⟨h1, fun i hi => by rw [h1] at hi; exact Db.noConfusion hi⟩

/-- Witness for C1: the base facade over one replica routes `insert` to the
primary instance, not to replica 0. -/
theorem C1_write_entry_points_route_to_primary_witness :
    (withReplicas Db.primary [Db.replica 0] (fun l => l.headD Db.primary)).writeTarget
      WriteOp.insert = Db.primary ∧
    (withReplicas Db.primary [Db.replica 0] (fun l => l.headD Db.primary)).writeTarget
      WriteOp.insert ≠ Db.replica 0 := by
  have h := C1_write_entry_points_route_to_primary [Db.replica 0]
    (fun l => l.headD Db.primary) _ Reachable.base WriteOp.insert
  exact ⟨h.1, h.2 0⟩

/-! ## C5 -/

/-- C5: `usePrimaryOnly()` is idempotent and non-mutating.  For the facade
built by `createDatabase` in either mode: applying `usePrimaryOnly` twice
gives the same facade as applying it once (so the two facades a caller
obtains from two calls are behaviorally equivalent); the derived facade
routes every read and every write to the primary; and the source facade's
own dispatch still follows its original mode (`usePrimaryOnly` builds a
fresh facade from the shared closure context and never writes into its
receiver). -/
theorem C5_usePrimaryOnly_idempotent_nonmutating (p : Db) (rs : List Db)
    (sel : Selector) (mode : Bool) :
    ((createDatabase p rs sel mode).usePrimaryOnly.usePrimaryOnly =
      (createDatabase p rs sel mode).usePrimaryOnly) ∧
    (∀ op : ReadOp,
      (createDatabase p rs sel mode).usePrimaryOnly.readTarget op = p) ∧
    (∀ w : WriteOp,
      (createDatabase p rs sel mode).usePrimaryOnly.writeTarget w = p) ∧
    (∀ op : ReadOp,
      (createDatabase p rs sel mode).readTarget op = getDbForRead p rs sel mode) := by
  refine ⟨rfl, fun op => ?_, fun w => writeTarget_createDatabase _ _ _ _ w,
    fun op => readTarget_createDatabase _ _ _ _ op⟩
  show (createDatabase p rs sel true).readTarget op = p
  rw [readTarget_createDatabase]
  rfl

/-! ## C6 -/

/-- C6: read dispatch.  For every facade and read entry point: in
PrimaryOnly mode (`usePrimary = true`) the read is served by the primary;
otherwise it is served by the replica the selection strategy returns for the
replica set. -/
theorem C6_read_dispatch (p : Db) (rs : List Db) (sel : Selector)
    (mode : Bool) (op : ReadOp) :
    (createDatabase p rs sel mode).readTarget op =
      if mode then p else sel rs := by
  rw [readTarget_createDatabase]
  rfl

/-! ## C2 -/

/-- C2: read-after-write window.  After `replicationCache.set(K)` at time `T`
(key `K = "user:" ++ uid`, default TTL 5000 ms): `get(K)` at time `tr`
returns the expiry `T + 5000` exactly when `tr < T + 5000` and nothing
otherwise; a `GET` through the read-after-write middleware at `tr < T + 5000`
is routed to the primary-only facade and at `tr ≥ T + 5000` through the
unmodified facade; and a repeated `set` overwrites the entry, restarting the
window from the newer mutation time. -/
theorem C2_read_after_write_window (c : CacheMap) (uid : String) (T tr : Nat) :
    ((cacheGet (replicationCacheSet c ("user:" ++ uid) T) ("user:" ++ uid) tr).1
        = some (T + 5000) ↔ tr < T + 5000) ∧
    (tr < T + 5000 →
      (withRESTReadAfterWrite "GET" (some uid)
        (replicationCacheSet c ("user:" ++ uid) T) tr).1 = Route.primaryOnly) ∧
    (T + 5000 ≤ tr →
      (withRESTReadAfterWrite "GET" (some uid)
        (replicationCacheSet c ("user:" ++ uid) T) tr).1 = Route.original) ∧
    (∀ T2 : Nat,
      replicationCacheSet (replicationCacheSet c ("user:" ++ uid) T)
          ("user:" ++ uid) T2 =
        replicationCacheSet c ("user:" ++ uid) T2) := by
  have hget : (cacheGet (replicationCacheSet c ("user:" ++ uid) T)
      ("user:" ++ uid) tr).1 = if T + 5000 ≤ tr then none else some (T + 5000) :=
    cacheGet_after_set 5000 c ("user:" ++ uid) T tr
  refine ⟨?_, ?_, ?_, ?_⟩
  · rw [hget]
    by_cases h : T + 5000 ≤ tr
    · simp [h]
    · simp [h]
      omega
  · intro hlt
    rw [withRESTReadAfterWrite_get_route, hget, if_neg (by omega)]
  · intro hge
    rw [withRESTReadAfterWrite_get_route, hget, if_pos hge]
  · intro T2
    funext k
    simp only [replicationCacheSet, cacheSet]
    split <;> rfl

/-- Witness for C2: with an empty cache, a mutation for user `u1` at
`T = 100` forces primary for a read at 4000 ms and no longer at 5100 ms. -/
theorem C2_read_after_write_window_witness :
    (withRESTReadAfterWrite "GET" (some "u1")
      (replicationCacheSet (fun _ => none) ("user:" ++ "u1") 100) 4000).1 =
        Route.primaryOnly ∧
    (withRESTReadAfterWrite "GET" (some "u1")
      (replicationCacheSet (fun _ => none) ("user:" ++ "u1") 100) 5100).1 =
        Route.original :=
  ⟨(C2_read_after_write_window (fun _ => none) "u1" 100 4000).2.1 (by omega),
   (C2_read_after_write_window (fun _ => none) "u1" 100 5100).2.2.1 (by omega)⟩

/-! ## C3 -/

/-- C3: connection retry with linear backoff.  With a non-empty replica list
and a probe that fails on attempts 1 and 2 and succeeds on attempt 3:
`connectDb` with `retries = 3` returns the working replicated facade after
sleeping `1000 * 1` and `1000 * 2` milliseconds (linear backoff,
`delay = attempt × 1000 ms`), while `connectDb` with `retries = 2` under the
identical pattern rethrows the connection error. -/
theorem C3_connect_retry_backoff (er : Option String) (rg : List String)
    (r0 : Db) (rest : List Db) (probe : Nat → Bool) (clock : Nat → Nat)
    (h1 : probe 1 = false) (h2 : probe 2 = false) (h3 : probe 3 = true) :
    connectDb er rg (r0 :: rest) probe clock 3 =
      Except.ok (ConnectOutcome.replicated (withReplicas Db.primary (r0 :: rest)
        (connectSelector (getReplicaIndex er (r0 :: rest).length rg
          (r0 :: rest).length (clock 3)))), [1000 * 1, 1000 * 2]) ∧
    connectDb er rg (r0 :: rest) probe clock 2 = Except.error () := by
  constructor
  · rw [connectDb,
      connectWithRetry_probe_false er rg r0 rest probe clock 3 1 h1 (by omega),
      connectWithRetry_probe_false er rg r0 rest probe clock 3 2 h2 (by omega),
      connectWithRetry_probe_true er rg r0 rest probe clock 3 3 h3]
  · rw [connectDb,
      connectWithRetry_probe_false er rg r0 rest probe clock 2 1 h1 (by omega),
      connectWithRetry_probe_exhausted er rg r0 rest probe clock 2 2 h2 (by omega)]

/-- Witness for C3: a concrete probe failing twice then succeeding. -/
theorem C3_connect_retry_backoff_witness :
    connectDb none [] [Db.replica 0] (fun n => decide (3 ≤ n)) (fun _ => 0) 3 =
      Except.ok (ConnectOutcome.replicated (withReplicas Db.primary [Db.replica 0]
        (connectSelector (getReplicaIndex none [Db.replica 0].length []
          [Db.replica 0].length 0))), [1000 * 1, 1000 * 2]) ∧
    connectDb none [] [Db.replica 0] (fun n => decide (3 ≤ n)) (fun _ => 0) 2 =
      Except.error () :=
  C3_connect_retry_backoff none [] (Db.replica 0) []
    (fun n => decide (3 ≤ n)) (fun _ => 0) rfl rfl rfl

/-! ## C4 -/

/-- C4: when both the replica-URL list and the region list parse to
non-empty lists of different lengths, `EnvSchema` validation fails, so the
env module exits the process: no env snapshot exists, the db client module
can never initialise, and no pool or connection is ever created. -/
theorem C4_mismatched_lists_fail_validation (e : ProcessEnv)
    (hr : 0 < (splitEnvList e.DATABASE_REPLICAS).length)
    (hg : 0 < (splitEnvList e.DATABASE_REGIONS).length)
    (hne : (splitEnvList e.DATABASE_REPLICAS).length ≠
      (splitEnvList e.DATABASE_REGIONS).length) :
    (envSafeParse e).isOk = false ∧ (clientModuleInit e).isOk = false := by
  have hm : replicasRegionsMismatch e.DATABASE_REPLICAS e.DATABASE_REGIONS
      = true := by
    simp only [replicasRegionsMismatch, decide_eq_true_eq]
    exact ⟨hr, hg, hne⟩
  rcases hu : e.DATABASE_PRIMARY_URL with _ | purl <;>
    rcases hp : e.DATABASE_PRIMARY_POOLER_URL with _ | poolerUrl <;>
      simp [envSafeParse, clientModuleInit, hu, hp, hm, Except.isOk,
        Except.toBool]

/-- Witness for C4: two replica URLs against three region tags. -/
theorem C4_mismatched_lists_fail_validation_witness :
    (envSafeParse
      { DATABASE_PRIMARY_URL := some "postgresql://primary"
        DATABASE_PRIMARY_POOLER_URL := some "postgresql://pooler"
        DATABASE_REPLICAS := some "postgresql://r1,postgresql://r2"
        DATABASE_REGIONS := some "us-east,eu-west,ap-south" }).isOk = false ∧
    (clientModuleInit
      { DATABASE_PRIMARY_URL := some "postgresql://primary"
        DATABASE_PRIMARY_POOLER_URL := some "postgresql://pooler"
        DATABASE_REPLICAS := some "postgresql://r1,postgresql://r2"
        DATABASE_REGIONS := some "us-east,eu-west,ap-south" }).isOk = false :=
  C4_mismatched_lists_fail_validation _ (by decide) (by decide) (by decide)

/-! ## C7 -/

/-- C7: region-to-index resolution (`getReplicaIndexForRegion`, generic over
the provider's alias table).  (i) The result is `-1` or a valid index into
the configured region list — the function is total and never errors.
(ii) A case-insensitive direct match returns the first matching index.
(iii) Without a direct match, any non-`-1` result comes from an alias entry
whose key or target spellings the region equals, and is the index of the
first configured region equal to that alias key or one of its targets.
(iv) Without a direct match, when no alias entry both matches the region
and has a matching configured region, the result is `-1` ("no match"). -/
theorem C7_region_to_index_resolution (aliases : AliasTable)
    (regions : List String) (region : String) :
    (getReplicaIndexForRegion aliases regions region = -1 ∨
      ∃ i : Nat, getReplicaIndexForRegion aliases regions region = (i : Int) ∧
        i < regions.length) ∧
    (∀ i : Nat,
      regions.findIdx? (fun r => jsToLower r = jsToLower region) = some i →
      getReplicaIndexForRegion aliases regions region = (i : Int)) ∧
    (regions.findIdx? (fun r => jsToLower r = jsToLower region) = none →
      ∀ i : Nat, getReplicaIndexForRegion aliases regions region = (i : Int) →
        ∃ k ts, (k, ts) ∈ aliases ∧
          (jsToLower region = k ∨ ts.contains (jsToLower region)) ∧
          regions.findIdx?
            (fun r => jsToLower r = k ∨ ts.contains (jsToLower r)) = some i) ∧
    (regions.findIdx? (fun r => jsToLower r = jsToLower region) = none →
      (∀ k ts, (k, ts) ∈ aliases →
        (jsToLower region = k ∨ ts.contains (jsToLower region)) →
        regions.findIdx?
          (fun r => jsToLower r = k ∨ ts.contains (jsToLower r)) = none) →
      getReplicaIndexForRegion aliases regions region = -1) := by
  by_cases h0 : regions.length = 0
  · have hnil : regions = [] := List.length_eq_zero.mp h0
    subst hnil
    refine ⟨Or.inl rfl, ?_, ?_, ?_⟩
    · intro i hi
      simp [List.findIdx?_nil] at hi
    · intro _ i hi
      rw [getReplicaIndexForRegion] at hi
      simp at hi
    · intro _ _
      rfl
  · rcases hd : regions.findIdx? (fun r => jsToLower r = jsToLower region)
        with _ | d
    · have hval : getReplicaIndexForRegion aliases regions region =
          aliasLoop regions region aliases := by
        rw [getReplicaIndexForRegion, if_neg h0]
        simp only [hd]
      refine ⟨?_, ?_, ?_, ?_⟩
      · rw [hval]
        exact aliasLoop_bounds regions region aliases
      · intro i hi
        cases hi
      · intro _ i hi
        rw [hval] at hi
        exact aliasLoop_sound regions region aliases i hi
      · intro _ hall
        rw [hval]
        exact aliasLoop_none regions region aliases hall
    · have hval : getReplicaIndexForRegion aliases regions region = (d : Int) := by
        rw [getReplicaIndexForRegion, if_neg h0]
        simp only [hd]
      refine ⟨?_, ?_, ?_, ?_⟩
      · right
        exact ⟨d, hval, (List.findIdx?_eq_some_iff_findIdx_eq.mp hd).1⟩
      · intro i hi
        injection hi with hi
        rw [hval, hi]
      · intro hnone
        cases hnone
      · intro hnone
        cases hnone

/-- Witness for C7: with the Postgres alias table, regions
`["virginia", "eu-west"]` and current region `"EU-WEST"`, the direct
case-insensitive match yields index 1. -/
theorem C7_region_to_index_resolution_witness :
    getReplicaIndexForRegion postgresRegionAliases ["virginia", "eu-west"]
      "EU-WEST" = (1 : Int) :=
  (C7_region_to_index_resolution postgresRegionAliases ["virginia", "eu-west"]
    "EU-WEST").2.1 1 (by decide)

/-! ## C8 -/

/-- C8 counterexample: with replicas `[R0, R1]`, regions
`["us-east", "eu-west"]` and detected region `"ap-south"`, `connectDb`
(connect-time clock 0 ms) binds every read entry point of the facade to the
replica index `getReplicaIndex` computed once at connect time —
`0 / 1000 % 2 = 0`, i.e. `R0` — and the target is fixed for the facade's
lifetime.  The claim instead predicts that a read issued when the wall clock
is 1500 ms lands on index `1500 / 1000 % 2 = 1`, i.e. `R1`
(`specTimeVaryingRoundRobinRead` states the claim's words).  The two
disagree, so the chosen index does not vary with the wall clock across read
operations on the facade. -/
theorem C8_counterexample_fallback_index_fixed :
    connectResultRead (connectDb (some "ap-south") ["us-east", "eu-west"]
      [Db.replica 0, Db.replica 1] (fun _ => true) (fun _ => 0))
      ReadOp.select = some (Db.replica 0) ∧
    specTimeVaryingRoundRobinRead [Db.replica 0, Db.replica 1] 1500 =
      some (Db.replica 1) ∧
    Db.replica 0 ≠ Db.replica 1 := by
  refine ⟨?_, by decide, by decide⟩
  rw [connectDb, connectWithRetry_probe_true (some "ap-south")
    ["us-east", "eu-west"] (Db.replica 0) [Db.replica 1] (fun _ => true)
    (fun _ => 0) 3 1 rfl]
  rw [connectResultRead]
  rw [show (withReplicas Db.primary [Db.replica 0, Db.replica 1]
    (connectSelector (getReplicaIndex (some "ap-south")
      [Db.replica 0, Db.replica 1].length ["us-east", "eu-west"]
      [Db.replica 0, Db.replica 1].length 0))).readTarget ReadOp.select =
    connectSelector (getReplicaIndex (some "ap-south") 2
      ["us-east", "eu-west"] 2 0) [Db.replica 0, Db.replica 1] from
    readTarget_createDatabase _ _ _ _ _]
  rw [getReplicaIndex_fallback_nomatch (some "ap-south") 2
    ["us-east", "eu-west"] 2 0 rfl (by omega) (by decide)]
  rfl

/-- C8 amended: with replicas `[R0, R1]` and regions `["us-east", "eu-west"]`:
when the detected region is `"eu-west"`, every read entry point of the
`connectDb` facade is served by `R1`; when the detected region is
`"ap-south"` (no match), the fallback index is the time-based round-robin
value `floor(connect-time epoch seconds) mod 2`, computed once by
`getReplicaIndex` at connect time `tc` and fixed for every read on the
facade (not recomputed per read operation). -/
theorem C8_amended_fallback_round_robin_at_connect_time (tc : Nat)
    (op : ReadOp) :
    connectResultRead (connectDb (some "eu-west") ["us-east", "eu-west"]
      [Db.replica 0, Db.replica 1] (fun _ => true) (fun _ => tc)) op =
      some (Db.replica 1) ∧
    connectResultRead (connectDb (some "ap-south") ["us-east", "eu-west"]
      [Db.replica 0, Db.replica 1] (fun _ => true) (fun _ => tc)) op =
      some (if tc / 1000 % 2 = 0 then Db.replica 0 else Db.replica 1) := by
  constructor
  · rw [connectDb, connectWithRetry_probe_true (some "eu-west")
      ["us-east", "eu-west"] (Db.replica 0) [Db.replica 1] (fun _ => true)
      (fun _ => tc) 3 1 rfl]
    rw [connectResultRead]
    rw [show (withReplicas Db.primary [Db.replica 0, Db.replica 1]
      (connectSelector (getReplicaIndex (some "eu-west")
        [Db.replica 0, Db.replica 1].length ["us-east", "eu-west"]
        [Db.replica 0, Db.replica 1].length tc))).readTarget op =
      connectSelector (getReplicaIndex (some "eu-west") 2
        ["us-east", "eu-west"] 2 tc) [Db.replica 0, Db.replica 1] from
      readTarget_createDatabase _ _ _ _ _]
    rw [getReplicaIndex_direct (some "eu-west") 2 ["us-east", "eu-west"] 2 tc 1
      rfl (by omega) (by decide) (by omega)]
    rfl
  · rw [connectDb, connectWithRetry_probe_true (some "ap-south")
      ["us-east", "eu-west"] (Db.replica 0) [Db.replica 1] (fun _ => true)
      (fun _ => tc) 3 1 rfl]
    rw [connectResultRead]
    rw [show (withReplicas Db.primary [Db.replica 0, Db.replica 1]
      (connectSelector (getReplicaIndex (some "ap-south")
        [Db.replica 0, Db.replica 1].length ["us-east", "eu-west"]
        [Db.replica 0, Db.replica 1].length tc))).readTarget op =
      connectSelector (getReplicaIndex (some "ap-south") 2
        ["us-east", "eu-west"] 2 tc) [Db.replica 0, Db.replica 1] from
      readTarget_createDatabase _ _ _ _ _]
    rw [getReplicaIndex_fallback_nomatch (some "ap-south") 2
      ["us-east", "eu-west"] 2 tc rfl (by omega) (by decide)]
    rcases Nat.mod_two_eq_zero_or_one (tc / 1000) with h | h <;> rw [h] <;> rfl

/-! ## C9 -/

/-- C9: when the explicit `DATABASE_REGION` override is absent (or empty)
and none of the five platform-signal detectors yields a region,
`detectDeploymentRegion` returns the explicit unresolved result (`none`,
embedding the source's `return null`), and `setDatabaseRegion` then leaves
the process environment untouched — the unresolved value is never written
into `DATABASE_REGION` as if it were a valid region. -/
theorem C9_unresolved_region_sentinel (e : ProcessEnv)
    (hov : truthy e.DATABASE_REGION = false)
    (h1 : detectFlyio e = none) (h2 : detectRender e = none)
    (h3 : detectVercel e = none) (h4 : detectRailway e = none)
    (h5 : detectAws e = none) :
    detectDeploymentRegion e = none ∧ setDatabaseRegion e = e := by
  have hd : detectDeploymentRegion e = none := by
    rw [detectDeploymentRegion, if_neg (by simp [hov])]
    simp [platformDetectorList, firstDetectedRegion, h1, h2, h3, h4, h5, truthy]
  refine ⟨hd, ?_⟩
  rw [setDatabaseRegion, hd]

/-- Witness for C9: the empty process environment. -/
theorem C9_unresolved_region_sentinel_witness :
    detectDeploymentRegion {} = none ∧
    setDatabaseRegion {} = ({} : ProcessEnv) :=
  C9_unresolved_region_sentinel {} rfl rfl rfl rfl rfl rfl

/-! ## C10 -/

/-- C10: the env snapshot `getReplicaIndex` reads is parsed from
`process.env` when the env module is imported, before the `client.ts` body
runs `setDatabaseRegion()`.  Hence whenever `DATABASE_REGION` was unset at
parse time, the snapshot's region is `none` forever — even if platform
detection later wrote a region into `process.env` — and `getReplicaIndex`
takes its round-robin fallback branch regardless of platform signals. -/
theorem C10_env_snapshot_precedes_region_detection (e0 : ProcessEnv)
    (h : e0.DATABASE_REGION = none) (st : DbModuleState)
    (hinit : clientModuleInit e0 = Except.ok st) :
    st.envSnapshot.DATABASE_REGION = none ∧
    ∀ replicaCount : Nat, ∀ regions : List String, ∀ urlsLen now : Nat,
      0 < replicaCount →
      getReplicaIndex st.envSnapshot.DATABASE_REGION replicaCount regions
        urlsLen now = now / 1000 % replicaCount := by
  have hsnap : st.envSnapshot.DATABASE_REGION = none := by
    rw [clientModuleInit] at hinit
    rcases hp : envSafeParse e0 with err | d
    · rw [hp] at hinit
      cases hinit
    · rw [hp] at hinit
      injection hinit with hst
      rw [envSafeParse] at hp
      rcases hu : e0.DATABASE_PRIMARY_URL with _ | purl <;> rw [hu] at hp
      · cases hp
      · rcases hq : e0.DATABASE_PRIMARY_POOLER_URL with _ | poolerUrl <;>
          rw [hq] at hp
        · cases hp
        · dsimp only at hp
          by_cases hm : replicasRegionsMismatch e0.DATABASE_REPLICAS
              e0.DATABASE_REGIONS = true
          · rw [if_pos hm] at hp
            cases hp
          · rw [if_neg hm] at hp
            injection hp with hdd
            rw [← hst]
            show d.DATABASE_REGION = none
            rw [← hdd]
            exact h
  refine ⟨hsnap, fun rc regions urlsLen now hrc => ?_⟩
  rw [hsnap]
  exact getReplicaIndex_fallback_falsy none rc regions urlsLen now rfl

/-- Witness for C10: with `DATABASE_REGION` unset and a Fly.io signal
present, the initialised module's snapshot still has no region and
`getReplicaIndex` falls back to the clock, even though `process.env` ended
up carrying the detected region `ams`. -/
theorem C10_env_snapshot_precedes_region_detection_witness :
    exampleInitStateFly.envSnapshot.DATABASE_REGION = none ∧
    getReplicaIndex exampleInitStateFly.envSnapshot.DATABASE_REGION 2
      ["us-east", "eu-west"] 2 7500 = 7500 / 1000 % 2 := by
  have h := C10_env_snapshot_precedes_region_detection exampleEnvFly rfl
    exampleInitStateFly rfl
  exact ⟨h.1, h.2 2 ["us-east", "eu-west"] 2 7500 (by omega)⟩

end Esk
